import Mathlib

/-!
# Verification of the `lssa-treasury` instruction handlers

A shallow embedding of the Treasury program's instruction handlers:

* the guest handlers of `methods/guest/src/bin/treasury.rs`
  (`create_vault`, `send`, `deposit`), which return `Result`-style errors;
* the legacy handlers of the `treasury_program` crate
  (`create_vault.rs`, `send.rs`, `receive.rs`, `deposit.rs`,
  `add_member.rs`, `change_threshold.rs`), which signal failures with
  `assert!`/`expect` (modelled as `Fault.panicked`).

Machine integers are modelled as `Nat` with explicit `% 2^w` where the code
can overflow (byte-level little-endian encodings truncate the same way as
the Rust serializers).  Account buffers are byte lists.
-/

namespace Treasury

/-- A byte buffer: bytes are naturals `< 256` wherever the code produced
them; decoders interpret positionally, encoders truncate with `% 256`. -/
abbrev Bytes := List Nat

/-- `nssa_core::account::Account`: per the spec, an account is an opaque
byte buffer and two accounts are equal iff their buffers are equal. -/
structure Account where
  data : Bytes
deriving DecidableEq, Repr

/-- `Account::default()` — the all-default (uninitialized) sentinel buffer
the handlers compare against. -/
def Account.default : Account := ⟨[]⟩

/-- `nssa_core::account::AccountWithMetadata`: an account, its 32-byte id,
and the host-set `is_authorized` flag. -/
structure AccountWithMetadata where
  account_id : Bytes
  account : Account
  is_authorized : Bool
deriving DecidableEq, Repr

/-- `nssa_core::program::AccountPostState`: `new` keeps ownership,
`new_claimed` claims the account. -/
inductive AccountPostState where
  | new (account : Account)
  | new_claimed (account : Account)
deriving DecidableEq, Repr

/-- The error taxonomy used by the guest handlers (`NssaError`); `custom`
is `NssaError::custom(code, message)`. -/
inductive NssaError where
  | Unauthorized (message : String)
  | DeserializationError (account_index : Nat) (message : String)
  | SerializationError (message : String)
  | custom (code : Nat) (message : String)
deriving DecidableEq, Repr

/-- How a handler invocation fails: `err` is a returned error value
(`Err(NssaError)` in the guest); `panicked` is an uncatchable fault
(`assert!`/`expect`/`unwrap` in the legacy crate). -/
inductive Fault where
  | err (e : NssaError)
  | panicked (message : String)
deriving DecidableEq, Repr

/-- Is the fault a returned error value (not a panic)? -/
def Fault.isErrValue : Fault → Bool
  | .err _ => true
  | .panicked _ => false

/-- Is the fault a panic (an uncatchable fault)? -/
def Fault.isPanicked : Fault → Bool
  | .err _ => false
  | .panicked _ => true

/-- Is the fault a returned error value, or else exactly the panic with
the given message? -/
def Fault.isErrValueOr (msg : String) : Fault → Bool
  | .err _ => true
  | .panicked m => m == msg

/-- Little-endian encoding of `n` on `k` bytes (truncates to `n % 2^(8k)`,
exactly like `to_le_bytes` on a `k`-byte machine integer). -/
def leBytes : Nat → Nat → Bytes
  | 0, _ => []
  | k + 1, n => n % 256 :: leBytes k (n / 256)

/-- Positional little-endian value of a byte list (`from_le_bytes`). -/
def leValue : Bytes → Nat
  | [] => 0
  | b :: bs => b + 256 * leValue bs

/-- Split off the first `k` bytes, failing when the buffer is shorter. -/
def takeDrop (k : Nat) (bs : Bytes) : Option (Bytes × Bytes) :=
  if k ≤ bs.length then some (bs.take k, bs.drop k) else none

/-- Read `n` consecutive 32-byte keys (borsh layout of a `Vec<[u8; 32]>`
body). -/
def readKeys : Nat → Bytes → Option (List Bytes × Bytes)
  | 0, bs => some ([], bs)
  | n + 1, bs =>
    match takeDrop 32 bs with
    | none => none
    | some (k, rest) =>
      match readKeys n rest with
      | none => none
      | some (ks, rest') => some (k :: ks, rest')

/-! ## Treasury state (guest version) -/

/-- Modelled from the spec: the guest's `TreasuryState` (`vault_count: u64`,
`authorized_accounts: sequence of 32-byte keys`, §3 of the spec).  The
`treasury_core` snapshot under `src/` lacks the `authorized_accounts`
field that the guest handlers read and write, so the struct is taken from
the spec's data model. -/
structure TreasuryState where
  vault_count : Nat
  authorized_accounts : List Bytes
deriving DecidableEq, Repr

/-- borsh decoding of the guest `TreasuryState`: `u64` little-endian
`vault_count`, then `u32` length-prefixed list of 32-byte keys; the whole
buffer must be consumed (`borsh::from_slice`). -/
def decodeTreasuryState (bs : Bytes) : Option TreasuryState :=
  match takeDrop 8 bs with
  | none => none
  | some (vc, r1) =>
    match takeDrop 4 r1 with
    | none => none
    | some (cnt, r2) =>
      match readKeys (leValue cnt) r2 with
      | none => none
      | some (keys, r3) =>
        if r3.isEmpty then some ⟨leValue vc, keys⟩ else none

/-- borsh encoding of the guest `TreasuryState` (inverse of
`decodeTreasuryState` on well-formed states). -/
def encodeTreasuryState (s : TreasuryState) : Bytes :=
  leBytes 8 s.vault_count ++ leBytes 4 s.authorized_accounts.length ++
    s.authorized_accounts.flatten

/-! ## Multisig state -/

/-- Modelled from the spec: `MultisigState` (§3: `threshold: u8`,
`members: ordered sequence of 32-byte keys`, `member_count: u8`,
`nonce: u64`).  The struct lives in `treasury_core` in the real tree but
is absent from the `src/` snapshot; only its callers and tests are
present. -/
structure MultisigState where
  threshold : Nat
  members : List Bytes
  member_count : Nat
  nonce : Nat
deriving DecidableEq, Repr

/-- `MultisigState::is_member`: membership of a key in `members`. -/
def MultisigState.is_member (s : MultisigState) (k : Bytes) : Bool :=
  s.members.contains k

/-- Modelled from the spec: `MultisigState::count_valid_signers` — §4.2:
signers not in `members` are silently ignored and "only the intersection
size matters", i.e. the number of distinct signer ids that are members. -/
def MultisigState.count_valid_signers (s : MultisigState)
    (signers : List Bytes) : Nat :=
  (signers.dedup.filter (fun k => s.members.contains k)).length

/-- borsh decoding of `MultisigState` in the spec's field order:
`u8` threshold, `u32`-prefixed members, `u8` member_count, `u64` nonce;
full consumption required. -/
def decodeMultisigState (bs : Bytes) : Option MultisigState :=
  match bs with
  | [] => none
  | t :: r0 =>
    match takeDrop 4 r0 with
    | none => none
    | some (cnt, r1) =>
      match readKeys (leValue cnt) r1 with
      | none => none
      | some (keys, r2) =>
        match r2 with
        | [] => none
        | mc :: r3 =>
          match takeDrop 8 r3 with
          | none => none
          | some (nb, r4) =>
            if r4.isEmpty then some ⟨t, keys, mc, leValue nb⟩ else none

/-- borsh encoding of `MultisigState` (the handlers re-serialize the
mutated state with it; the `% 256` / 8-byte truncations model the `u8` and
`u64` widths). -/
def encodeMultisigState (s : MultisigState) : Bytes :=
  s.threshold % 256 :: (leBytes 4 s.members.length ++ s.members.flatten ++
    s.member_count % 256 :: leBytes 8 s.nonce)

/-! ## Chained calls and handler outputs -/

/-- `nssa_core::program::ChainedCall` with a raw byte/word payload, as the
guest handlers and the legacy `deposit.rs` dispatcher build it.  The
risc0 serde framing around the guest's token instruction bytes is a codec
internal and is elided: `instruction_data` holds the token instruction
bytes themselves (words for the `deposit.rs` dispatcher). -/
structure ChainedCall where
  program_id : Nat
  instruction_data : List Nat
  pre_states : List AccountWithMetadata
  pda_seeds : List Bytes
deriving DecidableEq, Repr

/-- The guest's `NssaOutput::with_chained_calls(post_states, chained_calls)`. -/
structure NssaOutput where
  post_states : List AccountPostState
  chained_calls : List ChainedCall
deriving DecidableEq, Repr

/-- `token_core::Instruction` as the legacy vault handlers pass it to
`ChainedCall::new` (the byte-exact wire format is out of scope per the
spec, so the payload is kept symbolic). -/
inductive TokenInstruction where
  | Transfer (amount_to_transfer : Nat)
  | NewFungibleDefinition (name : String) (total_supply : Nat)
deriving DecidableEq, Repr

/-- A chained call as built by the legacy vault handlers
(`ChainedCall::new(program_id, pre_states, &instruction)` followed by
`with_pda_seeds`). -/
structure LChainedCall where
  program_id : Nat
  instruction : TokenInstruction
  pre_states : List AccountWithMetadata
  pda_seeds : List Bytes
deriving DecidableEq, Repr

/-- Result of a legacy handler: the post-states and chained calls it
returns, or the fault it raises. -/
abbrev LegacyResult := Except Fault (List AccountPostState × List LChainedCall)

instance {ε α : Type} [DecidableEq ε] [DecidableEq α] :
    DecidableEq (Except ε α) := fun a b =>
  match a, b with
  | .ok x, .ok y =>
    if h : x = y then .isTrue (by rw [h])
    else .isFalse (fun hh => h (Except.ok.inj hh))
  | .error x, .error y =>
    if h : x = y then .isTrue (by rw [h])
    else .isFalse (fun hh => h (Except.error.inj hh))
  | .ok _, .error _ => .isFalse (fun hh => Except.noConfusion hh)
  | .error _, .ok _ => .isFalse (fun hh => Except.noConfusion hh)

/-- Modelled from the spec: `token_core::TokenHolding::try_from` on an
account buffer, of which this layer uses only the embedded
token-definition id "read at a fixed byte offset" after verifying "the
vault buffer is long enough" (§4.3).  The guest handler reads bytes
`1..33` after checking `len ≥ 33`; the model returns that id. -/
def tokenHoldingTryFrom (bs : Bytes) : Option Bytes :=
  if 33 ≤ bs.length then some ((bs.drop 1).take 32) else none

/-- Modelled from the spec: the capacity of an account's byte buffer
(§3: an account is an "opaque fixed-capacity byte buffer"; neither the
spec nor the `src/` snapshot gives the numeric capacity of
`nssa_core::account::Data`, so it is fixed here at 1024 bytes — any
finite capacity makes the oversized-state panic in the guest
`create_vault` reachable). -/
def DATA_CAPACITY : Nat := 1024

/-- Modelled from the spec: `Data::try_from(bytes)` — converting a byte
vector into the fixed-capacity account buffer succeeds iff the bytes
fit. -/
def dataTryFrom (bs : Bytes) : Option Account :=
  if bs.length ≤ DATA_CAPACITY then some ⟨bs⟩ else none

/-! ## Guest handlers (`methods/guest/src/bin/treasury.rs`) -/

namespace Guest

/-- Guest `create_vault`.  `token_name` is the `[u8; 6]` name field.
The `state_bytes.try_into().expect("TreasuryState too large")` on the
serialized state panics when the new state does not fit the fixed
capacity of the account buffer (reachable with enough
`authorized_accounts`); the infallible risc0-serde framing `unwrap` is
elided as a codec internal. -/
def create_vault (treasury_state_acct token_definition vault_holding :
    AccountWithMetadata) (token_name : Bytes) (initial_supply : Nat)
    (token_program_id : Nat) (authorized_accounts : List Bytes) :
    Except Fault NssaOutput :=
  if authorized_accounts.isEmpty then
    .error (.err (.custom 1 "At least one authorized account required"))
  else
    let is_first_time := treasury_state_acct.account = Account.default
    let state? : Option TreasuryState :=
      if is_first_time then some ⟨0, []⟩
      else decodeTreasuryState treasury_state_acct.account.data
    match state? with
    | none => .error (.err (.DeserializationError 0
        "failed to deserialize TreasuryState"))
    | some s =>
      let state : TreasuryState :=
        ⟨s.vault_count + 1, authorized_accounts⟩
      match dataTryFrom (encodeTreasuryState state) with
      | none => .error (.panicked "TreasuryState too large")
      | some treasury_post =>
        let treasury_post_state :=
          if is_first_time then AccountPostState.new_claimed treasury_post
          else AccountPostState.new treasury_post
        let token_ix_bytes : Bytes :=
          0 :: (leBytes 16 initial_supply ++ token_name)
        let vault_holding_authorized :=
          { vault_holding with is_authorized := true }
        let chained_call : ChainedCall :=
          ⟨token_program_id, token_ix_bytes,
           [token_definition, vault_holding_authorized],
           [token_definition.account_id]⟩
        .ok ⟨[treasury_post_state,
              .new token_definition.account,
              .new vault_holding.account],
             [chained_call]⟩

/-- Guest `send`. -/
def send (treasury_state_acct vault_holding recipient signer :
    AccountWithMetadata) (amount : Nat) (token_program_id : Nat) :
    Except Fault NssaOutput :=
  match decodeTreasuryState treasury_state_acct.account.data with
  | none => .error (.err (.DeserializationError 0
      "failed to deserialize TreasuryState"))
  | some state =>
    -- the source's early returns `if !cond { return Err(...) }` are
    -- written with the positive condition first
    if signer.account_id ∈ state.authorized_accounts then
      if signer.is_authorized then
        let vault_data := vault_holding.account.data
        if vault_data.length < 33 then
          .error (.err (.DeserializationError 1
            ("vault data too short (len=" ++ toString vault_data.length ++ ")")))
        else
          let def_id_bytes := (vault_data.drop 1).take 32
          let token_ix_bytes : Bytes :=
            1 :: (leBytes 16 amount ++ [0, 0, 0, 0, 0, 0])
          let vault_authorized :=
            { vault_holding with is_authorized := true }
          let chained_call : ChainedCall :=
            ⟨token_program_id, token_ix_bytes,
             [vault_authorized, recipient], [def_id_bytes]⟩
          .ok ⟨[.new treasury_state_acct.account,
                .new vault_holding.account,
                .new recipient.account,
                .new signer.account],
               [chained_call]⟩
      else
        .error (.err (.Unauthorized "Transaction not signed by this key"))
    else
      .error (.err (.Unauthorized "Signer is not an authorized account"))

/-- Guest `deposit`: no authorization check; forwards a transfer chained
call unmodified. -/
def deposit (treasury_state_acct sender_holding vault_holding :
    AccountWithMetadata) (amount : Nat) (token_program_id : Nat) :
    Except Fault NssaOutput :=
  let token_ix_bytes : Bytes :=
    1 :: (leBytes 16 amount ++ [0, 0, 0, 0, 0, 0])
  let chained_call : ChainedCall :=
    ⟨token_program_id, token_ix_bytes,
     [sender_holding, vault_holding], []⟩
  .ok ⟨[.new treasury_state_acct.account,
        .new sender_holding.account,
        .new vault_holding.account],
       [chained_call]⟩

end Guest

/-! ## Legacy handlers (`treasury_program` crate) -/

namespace Legacy

/-- `treasury_core::TreasuryState` as it appears under `src/` (legacy
version: only `vault_count: u64`). -/
structure LTreasuryState where
  vault_count : Nat
deriving DecidableEq, Repr

/-- borsh decoding of the legacy `TreasuryState`: 8 little-endian bytes,
fully consumed. -/
def decodeLTreasuryState (bs : Bytes) : Option LTreasuryState :=
  match takeDrop 8 bs with
  | none => none
  | some (vc, r) => if r.isEmpty then some ⟨leValue vc⟩ else none

/-- borsh encoding of the legacy `TreasuryState`. -/
def encodeLTreasuryState (s : LTreasuryState) : Bytes :=
  leBytes 8 s.vault_count

/-- Legacy `create_vault::create_vault`.  Failures (`expect` on the borsh
round-trips) are panics. -/
def create_vault (treasury_state token_definition vault_holding :
    AccountWithMetadata) (token_name : String) (initial_supply : Nat)
    (_treasury_program_id token_program_id : Nat) : LegacyResult :=
  let is_first_time := treasury_state.account = Account.default
  let state? : Option LTreasuryState :=
    if is_first_time then some ⟨0⟩
    else decodeLTreasuryState treasury_state.account.data
  match state? with
  | none => .error (.panicked "Failed to deserialize TreasuryState")
  | some s =>
    let state : LTreasuryState := ⟨s.vault_count + 1⟩
    let treasury_post : Account := ⟨encodeLTreasuryState state⟩
    let treasury_post_state :=
      if is_first_time then AccountPostState.new_claimed treasury_post
      else AccountPostState.new treasury_post
    let vault_for_chain := { vault_holding with is_authorized := true }
    let chained_call : LChainedCall :=
      ⟨token_program_id,
       .NewFungibleDefinition token_name initial_supply,
       [token_definition, vault_for_chain],
       [token_definition.account_id]⟩
    .ok ([treasury_post_state,
          .new token_definition.account,
          .new vault_holding.account],
         [chained_call])

/-- Legacy `send::send`.  The `assert!` on initialization and the
`expect` around `TokenHolding::try_from` are panics. -/
def send (treasury_state vault_holding recipient_holding :
    AccountWithMetadata) (amount : Nat) (token_program_id : Nat) :
    LegacyResult :=
  if treasury_state.account = Account.default then
    .error (.panicked "Treasury state is not initialized")
  else
    match tokenHoldingTryFrom vault_holding.account.data with
    | none => .error (.panicked "Vault must be a valid TokenHolding")
    | some definition_id =>
      let vault_for_chain := { vault_holding with is_authorized := true }
      let chained_call : LChainedCall :=
        ⟨token_program_id, .Transfer amount,
         [vault_for_chain, recipient_holding], [definition_id]⟩
      .ok ([.new treasury_state.account,
            .new vault_holding.account,
            .new recipient_holding.account],
           [chained_call])

/-- Legacy `receive::deposit`. -/
def deposit (treasury_state sender_holding vault_holding :
    AccountWithMetadata) (amount : Nat) (token_program_id : Nat) :
    LegacyResult :=
  if treasury_state.account = Account.default then
    .error (.panicked "Treasury state is not initialized")
  else
    let chained_call : LChainedCall :=
      ⟨token_program_id, .Transfer amount,
       [sender_holding, vault_holding], []⟩
    .ok ([.new treasury_state.account,
          .new sender_holding.account,
          .new vault_holding.account],
         [chained_call])

/-- The signer-id extraction shared by `add_member.rs` and
`change_threshold.rs`: the ids of the accounts whose `is_authorized` flag
is set. -/
def sigIds (accounts : List AccountWithMetadata) : List Bytes :=
  (accounts.filter (fun a => a.is_authorized)).map (fun a => a.account_id)

/-- Legacy `add_member::handle`.  All failures are `assert!`/`expect`
panics.  Account 0 is the multisig state, the remaining accounts are the
signer candidates. -/
def add_member (accounts : List AccountWithMetadata) (new_member : Bytes) :
    LegacyResult :=
  match accounts with
  | a0 :: a1 :: rest =>
    let authorized_signers := sigIds (a1 :: rest)
    match decodeMultisigState a0.account.data with
    | none => .error (.panicked "Failed to deserialize multisig state")
    | some state =>
      let valid_signers := state.count_valid_signers authorized_signers
      if valid_signers < state.threshold then
        .error (.panicked ("Insufficient signatures: need " ++
          toString state.threshold ++ ", got " ++ toString valid_signers))
      else if state.is_member new_member then
        .error (.panicked "Member already exists")
      else if 10 ≤ state.member_count then
        .error (.panicked "Maximum 10 members for PoC")
      else
        let state' : MultisigState :=
          ⟨state.threshold, state.members ++ [new_member],
           state.member_count + 1, state.nonce + 1⟩
        .ok ([.new ⟨encodeMultisigState state'⟩], [])
  | _ =>
    .error (.panicked
      "AddMember requires multisig_state and authorized accounts")

/-- Legacy `change_threshold::handle`. -/
def change_threshold (accounts : List AccountWithMetadata)
    (new_threshold : Nat) : LegacyResult :=
  match accounts with
  | a0 :: a1 :: rest =>
    let authorized_signers := sigIds (a1 :: rest)
    match decodeMultisigState a0.account.data with
    | none => .error (.panicked "Failed to deserialize multisig state")
    | some state =>
      let valid_signers := state.count_valid_signers authorized_signers
      if valid_signers < state.threshold then
        .error (.panicked ("Insufficient signatures: need " ++
          toString state.threshold ++ ", got " ++ toString valid_signers))
      else if new_threshold < 1 then
        .error (.panicked "Threshold must be at least 1")
      else if state.member_count < new_threshold then
        .error (.panicked "Threshold cannot exceed member count")
      else
        let state' : MultisigState :=
          ⟨new_threshold, state.members, state.member_count,
           state.nonce + 1⟩
        .ok ([.new ⟨encodeMultisigState state'⟩], [])
  | _ =>
    .error (.panicked
      "ChangeThreshold requires multisig_state and authorized accounts")

/-- The `ProgramOutput` returned by `deposit.rs`'s `handle`. -/
structure ProgramOutput where
  instruction_data : List Nat
  pre_states : List AccountWithMetadata
  post_states : List AccountPostState
  chained_calls : List ChainedCall
deriving DecidableEq, Repr

/-- `instruction.chunks(4).map(u32::from_le_bytes)` as written in
`deposit.rs`: `copy_from_slice` panics when a chunk is shorter than 4
bytes (which happens for the 17-byte transfer instruction it is applied
to). -/
def chunksToWords : Bytes → Except Fault (List Nat)
  | [] => .ok []
  | b0 :: b1 :: b2 :: b3 :: rest =>
    match chunksToWords rest with
    | .error f => .error f
    | .ok ws =>
      .ok ((b0 + 256 * b1 + 65536 * b2 + 16777216 * b3) :: ws)
  | _ =>
    .error (.panicked
      "source slice length does not match destination slice length")

/-- `deposit.rs`'s `build_transfer_instruction`:
`[0x01 || amount (16 bytes LE)]`, then packed into `u32` words. -/
def build_transfer_instruction (amount : Nat) : Except Fault (List Nat) :=
  chunksToWords (1 :: leBytes 16 amount)

/-- `deposit.rs`'s `handle`: with an account count other than 3 it
returns a `ProgramOutput` with *no* post-states and no chained calls (no
error); with 3 accounts it builds the transfer chained call with the
sender marked authorized. -/
def deposit_handle (accounts : List AccountWithMetadata) (amount : Nat)
    (token_program_id : Nat) : Except Fault ProgramOutput :=
  match accounts with
  | [a0, a1, a2] =>
    match build_transfer_instruction amount with
    | .error f => .error f
    | .ok instruction_data =>
      let sender_meta : AccountWithMetadata :=
        ⟨a1.account_id, a1.account, true⟩
      let vault_meta : AccountWithMetadata :=
        ⟨a2.account_id, a2.account, false⟩
      let chained_call : ChainedCall :=
        ⟨token_program_id, instruction_data,
         [sender_meta, vault_meta], []⟩
      .ok ⟨[], accounts,
           [.new a0.account, .new a1.account, .new a2.account],
           [chained_call]⟩
  | _ => .ok ⟨[], accounts, [], []⟩

end Legacy

/-! ## Helper predicates for the theorems -/

/-- Holds of every successful result's value (vacuously true on
failure). -/
def onOk {α : Type} (r : Except Fault α) (P : α → Prop) : Prop :=
  match r with
  | .ok a => P a
  | .error _ => True

/-- Holds of every failure's fault (vacuously true on success). -/
def failsWith {α : Type} (r : Except Fault α) (p : Fault → Bool) : Prop :=
  match r with
  | .ok _ => True
  | .error f => p f = true

theorem onOk_intro {α : Type} {r : Except Fault α} {P : α → Prop}
    (h : ∀ a, r = .ok a → P a) : onOk r P := by
  cases r with
  | ok a => exact h a rfl
  | error f => trivial

theorem failsWith_intro {α : Type} {r : Except Fault α} {p : Fault → Bool}
    (h : ∀ f, r = .error f → p f = true) : failsWith r p := by
  cases r with
  | ok a => trivial
  | error f => exact h f rfl

/-- `deposit.rs`'s `build_transfer_instruction` always panics: the
17-byte instruction is chunked into 4-byte words and the final 1-byte
chunk makes `copy_from_slice` fail. -/
theorem build_transfer_instruction_panics (amount : Nat) :
    Legacy.build_transfer_instruction amount =
      .error (.panicked
        "source slice length does not match destination slice length") := by
  simp [Legacy.build_transfer_instruction, leBytes, Legacy.chunksToWords]

/-- C4: guest `create_vault` with an empty `authorized_accounts` list
fails with the no-authorized-accounts error (`NssaError::custom(1, ...)`),
regardless of all other arguments — in particular the result does not
depend on the treasury account at all (the state is neither read nor
written: the error carries no post-state), so `vault_count` and the
treasury account buffer are unchanged. -/
theorem create_vault_empty_authorized_fails
    (ts td vh : AccountWithMetadata) (token_name : Bytes)
    (initial_supply token_program_id : Nat) :
    Guest.create_vault ts td vh token_name initial_supply
        token_program_id [] =
      .error (.err (.custom 1 "At least one authorized account required")) :=
  rfl

/-- C1: the guest `Send` handler fails with `Unauthorized` when the
invoking signer's id is not in `TreasuryState.authorized_accounts`, or
when the signer's `is_authorized` flag is false; and whenever it
succeeds, both conditions held and the single emitted chained call is the
token transfer (tag byte `0x01`, the amount little-endian) with the vault
marked authorized and the vault's embedded definition id as PDA seed. -/
theorem guest_send_authorization
    (ts vh rc sg : AccountWithMetadata) (amount pid : Nat)
    (st : TreasuryState)
    (hdec : decodeTreasuryState ts.account.data = some st) :
    (sg.account_id ∉ st.authorized_accounts →
      Guest.send ts vh rc sg amount pid =
        .error (.err (.Unauthorized "Signer is not an authorized account"))) ∧
    (sg.account_id ∈ st.authorized_accounts →
      sg.is_authorized = false →
      Guest.send ts vh rc sg amount pid =
        .error (.err (.Unauthorized "Transaction not signed by this key"))) ∧
    (∀ out, Guest.send ts vh rc sg amount pid = .ok out →
      sg.account_id ∈ st.authorized_accounts ∧
      sg.is_authorized = true ∧
      out.chained_calls = [⟨pid, 1 :: (leBytes 16 amount ++ [0, 0, 0, 0, 0, 0]),
        [{ vh with is_authorized := true }, rc],
        [(vh.account.data.drop 1).take 32]⟩]) := by
  refine ⟨?_, ?_, ?_⟩
  · intro h
    simp [Guest.send, hdec, h]
  · intro h1 h2
    simp [Guest.send, hdec, h1, h2]
  · intro out hout
    simp only [Guest.send, hdec] at hout
    by_cases h1 : sg.account_id ∈ st.authorized_accounts
    · by_cases h2 : sg.is_authorized
      · by_cases h3 : vh.account.data.length < 33
        · simp [h1, h2, h3] at hout
        · simp only [if_pos h1, if_pos h2, if_neg h3] at hout
          refine ⟨h1, h2, ?_⟩
          simp only [Except.ok.injEq] at hout
          subst hout
          rfl
      · simp [h1, h2] at hout
    · simp [h1] at hout

/-- C1 witness: a concrete `Send` by a signer whose id is not in the
stored `authorized_accounts` fails with `Unauthorized`. -/
theorem guest_send_authorization_witness :
    Guest.send ⟨[9], ⟨encodeTreasuryState ⟨0, [List.replicate 32 1]⟩⟩, false⟩
        ⟨[8], ⟨[]⟩, false⟩ ⟨[7], ⟨[]⟩, false⟩ ⟨[5], ⟨[]⟩, true⟩ 5 11 =
      .error (.err (.Unauthorized "Signer is not an authorized account")) :=
  (guest_send_authorization _ _ _ _ 5 11 ⟨0, [List.replicate 32 1]⟩
    (by decide)).1 (by decide)

/-- C3 counterexample: the legacy `send` output is *not* independent of
every input `is_authorized` flag — flipping the recipient's flag changes
the emitted chained call (the recipient is cloned into the chained call's
pre-states with its flag), so the two results differ. -/
theorem legacy_send_depends_on_recipient_flag :
    Legacy.send ⟨List.replicate 32 9, ⟨[1]⟩, false⟩
        ⟨List.replicate 32 8, ⟨List.replicate 33 0⟩, false⟩
        ⟨List.replicate 32 7, ⟨[]⟩, false⟩ 5 11 ≠
      Legacy.send ⟨List.replicate 32 9, ⟨[1]⟩, false⟩
        ⟨List.replicate 32 8, ⟨List.replicate 33 0⟩, false⟩
        ⟨List.replicate 32 7, ⟨[]⟩, true⟩ 5 11 := by
  decide

/-- C3 (amended): the legacy `send` result is independent of the
`is_authorized` flags of the treasury-state and vault accounts; its
post-states are independent of all three flags; and on the parse-success
path it emits exactly one vault-transfer chained call with the vault
marked authorized and the vault's embedded definition id as PDA seed.
Only the recipient's flag leaks into the output, copied verbatim into the
chained call's recipient pre-state (no signer or authorized-accounts
check exists on this path). -/
theorem legacy_send_flag_independence
    (tsid : Bytes) (tsacc : Account) (f1 f1' : Bool)
    (vid : Bytes) (vacc : Account) (f2 f2' : Bool)
    (rid : Bytes) (racc : Account) (f3 f3' : Bool)
    (amount pid : Nat) :
    (Legacy.send ⟨tsid, tsacc, f1⟩ ⟨vid, vacc, f2⟩ ⟨rid, racc, f3⟩
        amount pid =
      Legacy.send ⟨tsid, tsacc, f1'⟩ ⟨vid, vacc, f2'⟩ ⟨rid, racc, f3⟩
        amount pid) ∧
    ((Legacy.send ⟨tsid, tsacc, f1⟩ ⟨vid, vacc, f2⟩ ⟨rid, racc, f3⟩
        amount pid).map Prod.fst =
      (Legacy.send ⟨tsid, tsacc, f1'⟩ ⟨vid, vacc, f2'⟩ ⟨rid, racc, f3'⟩
        amount pid).map Prod.fst) ∧
    onOk (Legacy.send ⟨tsid, tsacc, f1⟩ ⟨vid, vacc, f2⟩ ⟨rid, racc, f3⟩
        amount pid)
      (fun o => o.2 = [⟨pid, .Transfer amount,
        [⟨vid, vacc, true⟩, ⟨rid, racc, f3⟩],
        [(vacc.data.drop 1).take 32]⟩]) := by
  refine ⟨?_, ?_, ?_⟩ <;>
  · by_cases h : tsacc = Account.default
    · simp [Legacy.send, h, onOk, Except.map]
    · cases htd : tokenHoldingTryFrom vacc.data with
      | none => simp [Legacy.send, h, htd, onOk, Except.map]
      | some d =>
        have hd : d = (vacc.data.drop 1).take 32 := by
          unfold tokenHoldingTryFrom at htd
          split at htd
          · exact (Option.some.inj htd).symm
          · cases htd
        simp [Legacy.send, h, htd, onOk, Except.map, hd]

/-- C5 counterexample: with a duplicate member *and* fewer valid signers
than the threshold, `AddMember` fails with the insufficient-signatures
panic, not with `DuplicateMember` — the signature check runs first, so
the claim's "regardless of signer count (including fewer than threshold)"
is false. -/
theorem add_member_duplicate_below_threshold_fails_differently :
    Legacy.add_member
      [⟨List.replicate 32 10,
        ⟨encodeMultisigState ⟨2, [List.replicate 32 1, List.replicate 32 2], 2, 0⟩⟩,
        false⟩,
       ⟨List.replicate 32 1, ⟨[]⟩, true⟩]
      (List.replicate 32 1) =
    .error (.panicked "Insufficient signatures: need 2, got 1") := by
  decide

/-- C5 (amended): *given at least threshold-many valid signers*, adding
an already-present member always fails with `DuplicateMember` ("Member
already exists"); with fewer valid signers the duplicate add fails with
`InsufficientSignatures` instead. -/
theorem add_member_duplicate_rejected
    (a0 a1 : AccountWithMetadata) (rest : List AccountWithMetadata)
    (nm : Bytes) (st : MultisigState)
    (hdec : decodeMultisigState a0.account.data = some st)
    (hsig : st.threshold ≤ st.count_valid_signers (Legacy.sigIds (a1 :: rest)))
    (hdup : st.is_member nm = true) :
    Legacy.add_member (a0 :: a1 :: rest) nm =
      .error (.panicked "Member already exists") := by
  simp only [Legacy.add_member, hdec]
  rw [if_neg (by omega), if_pos hdup]

/-- C5 witness: a concrete duplicate add with a met threshold fails with
"Member already exists". -/
theorem add_member_duplicate_rejected_witness :
    Legacy.add_member
      [⟨List.replicate 32 11,
        ⟨encodeMultisigState ⟨1, [List.replicate 32 3], 1, 0⟩⟩, false⟩,
       ⟨List.replicate 32 3, ⟨[]⟩, true⟩]
      (List.replicate 32 3) =
      .error (.panicked "Member already exists") :=
  add_member_duplicate_rejected _ _ [] _ ⟨1, [List.replicate 32 3], 1, 0⟩
    (by decide) (by decide) (by decide)

/-- C6: `ChangeThreshold` with sufficient valid signatures succeeds
exactly when `1 ≤ new_threshold ≤ member_count` (so the boundaries 1 and
`member_count` succeed, 0 and `member_count + 1` fail), and on success it
stores the new threshold and increments the nonce (a `u64`) by exactly
one. -/
theorem change_threshold_boundaries
    (a0 a1 : AccountWithMetadata) (rest : List AccountWithMetadata)
    (t : Nat) (st : MultisigState)
    (hdec : decodeMultisigState a0.account.data = some st)
    (hsig : st.threshold ≤ st.count_valid_signers (Legacy.sigIds (a1 :: rest))) :
    Legacy.change_threshold (a0 :: a1 :: rest) t =
      if 1 ≤ t ∧ t ≤ st.member_count then
        .ok ([.new ⟨encodeMultisigState
          ⟨t, st.members, st.member_count, st.nonce + 1⟩⟩], [])
      else if t < 1 then
        .error (.panicked "Threshold must be at least 1")
      else
        .error (.panicked "Threshold cannot exceed member count") := by
  simp only [Legacy.change_threshold, hdec]
  rw [if_neg (by omega)]
  by_cases h1 : t < 1
  · rw [if_pos h1, if_neg (by omega), if_pos h1]
  · by_cases h2 : st.member_count < t
    · rw [if_neg h1, if_pos h2, if_neg (by omega), if_neg h1]
    · rw [if_neg h1, if_neg h2, if_pos (by omega)]

/-- C6 witness: at the lower boundary `new_threshold = 1`, a concrete
call succeeds with the threshold stored and the nonce bumped from 4
to 5. -/
theorem change_threshold_boundaries_witness :
    Legacy.change_threshold
      [⟨List.replicate 32 12,
        ⟨encodeMultisigState ⟨2, [List.replicate 32 4, List.replicate 32 5], 2, 4⟩⟩,
        false⟩,
       ⟨List.replicate 32 4, ⟨[]⟩, true⟩,
       ⟨List.replicate 32 5, ⟨[]⟩, true⟩] 1 =
      .ok ([.new ⟨encodeMultisigState
        ⟨1, [List.replicate 32 4, List.replicate 32 5], 2, 5⟩⟩], []) :=
  (change_threshold_boundaries _ _ [⟨List.replicate 32 5, ⟨[]⟩, true⟩] 1
    ⟨2, [List.replicate 32 4, List.replicate 32 5], 2, 4⟩
    (by decide) (by decide)).trans (by decide)

/-- C7 counterexample: a successful `AddMember` invocation with two
pre-state accounts (the multisig account and one signer) returns exactly
one post-state (the multisig account only), so
`post_states.len() == pre_states.len()` fails for this handler. -/
theorem add_member_posts_fewer_than_pres :
    Legacy.add_member
      [⟨List.replicate 32 15,
        ⟨encodeMultisigState ⟨1, [List.replicate 32 8], 1, 2⟩⟩, false⟩,
       ⟨List.replicate 32 8, ⟨[]⟩, true⟩]
      (List.replicate 32 9) =
    .ok ([.new ⟨encodeMultisigState
      ⟨1, [List.replicate 32 8, List.replicate 32 9], 2, 3⟩⟩], []) := by
  decide

/-- C7 (amended): the guest handlers and the legacy vault handlers emit
exactly one post-state per pre-state account, *in account order*: the
stated lists pin post-state `i` to pre-state account `i` — the mutated
treasury buffer sits at slot 0 (claimed exactly when the treasury
account was uninitialized) and every other slot carries that account's
unchanged buffer.  The legacy multisig handlers (`add_member`,
`change_threshold`) instead always emit exactly one post-state — the
re-serialized multisig account — however many signer accounts are
passed; and the legacy `deposit.rs` dispatcher emits the three accounts'
post-states in order for 3 accounts and *zero* post-states for any
other account count. -/
theorem post_state_counts
    (ts td vh rc sg sh : AccountWithMetadata) (tn : Bytes) (tns : String)
    (sup amount pid pid2 : Nat) (auth : List Bytes)
    (accounts : List AccountWithMetadata) (nm : Bytes) (t : Nat) :
    onOk (Guest.create_vault ts td vh tn sup pid auth)
      (fun o => ∃ a, o.post_states =
        [(if ts.account = Account.default then AccountPostState.new_claimed a
          else AccountPostState.new a),
         .new td.account, .new vh.account]) ∧
    onOk (Guest.send ts vh rc sg amount pid)
      (fun o => o.post_states =
        [.new ts.account, .new vh.account, .new rc.account,
         .new sg.account]) ∧
    onOk (Guest.deposit ts sh vh amount pid)
      (fun o => o.post_states =
        [.new ts.account, .new sh.account, .new vh.account]) ∧
    onOk (Legacy.create_vault ts td vh tns sup pid2 pid)
      (fun o => ∃ a, o.1 =
        [(if ts.account = Account.default then AccountPostState.new_claimed a
          else AccountPostState.new a),
         .new td.account, .new vh.account]) ∧
    onOk (Legacy.send ts vh rc amount pid)
      (fun o => o.1 =
        [.new ts.account, .new vh.account, .new rc.account]) ∧
    onOk (Legacy.deposit ts sh vh amount pid)
      (fun o => o.1 =
        [.new ts.account, .new sh.account, .new vh.account]) ∧
    onOk (Legacy.add_member accounts nm)
      (fun o => ∃ a, o.1 = [AccountPostState.new a]) ∧
    onOk (Legacy.change_threshold accounts t)
      (fun o => ∃ a, o.1 = [AccountPostState.new a]) ∧
    onOk (Legacy.deposit_handle accounts amount pid)
      (fun o => match accounts with
        | [a0, a1, a2] => o.post_states =
            [.new a0.account, .new a1.account, .new a2.account]
        | _ => o.post_states = []) := by
  refine ⟨?_, ?_, rfl, ?_, ?_, ?_, ?_, ?_, ?_⟩
  case refine_8 =>
    rcases accounts with _ | ⟨a0, _ | ⟨a1, _ | ⟨a2, _ | ⟨a3, rest⟩⟩⟩⟩ <;>
      simp [Legacy.deposit_handle, build_transfer_instruction_panics, onOk]
  all_goals
    apply onOk_intro
    intro o ho
    simp only [Guest.create_vault, Guest.send, Legacy.create_vault,
      Legacy.send, Legacy.deposit, Legacy.add_member,
      Legacy.change_threshold] at ho
    repeat' split at ho
    all_goals first
      | (injection ho with h; subst h; rfl)
      | (injection ho with h; subst h; exact ⟨_, rfl⟩)
      | (injection ho with h; subst h; simp_all)
      | injection ho

/-- C8 counterexample: a failure that is *not* returned as an error
value — the legacy `deposit` handler hits `assert!` on an uninitialized
treasury account and panics (an uncatchable fault), refuting "every
failure of every handler is returned as an error value". -/
theorem legacy_deposit_panics_on_uninitialized :
    Legacy.deposit ⟨List.replicate 32 3, ⟨[]⟩, false⟩
        ⟨List.replicate 32 4, ⟨[]⟩, true⟩
        ⟨List.replicate 32 5, ⟨[]⟩, false⟩ 9 13 =
      .error (.panicked "Treasury state is not initialized") := rfl

set_option maxRecDepth 40000 in
/-- C8 (amended): the guest `send` returns every failure as an error
value (never a panic) and the guest `deposit` cannot fail at all; the
guest `create_vault` returns its validation and deserialization failures
as error values but panics ("TreasuryState too large") when the new
state does not fit the fixed-capacity account buffer — a reachable path,
witnessed by the last conjunct with 32 authorized accounts; the legacy
handlers raise every failure as a panic
(`assert!`/`expect`/`copy_from_slice`).  In both styles a failure carries
no post-state: the result is either a full output or a bare fault, so no
partial mutation is observable. -/
theorem failures_error_vs_panic
    (ts td vh rc sg sh : AccountWithMetadata) (tn : Bytes) (tns : String)
    (sup amount pid pid2 : Nat) (auth : List Bytes)
    (accounts : List AccountWithMetadata) (nm : Bytes) (t : Nat) :
    failsWith (Guest.create_vault ts td vh tn sup pid auth)
      (Fault.isErrValueOr "TreasuryState too large") ∧
    (Guest.create_vault ⟨[9], ⟨[]⟩, false⟩ ⟨[8], ⟨[]⟩, false⟩
        ⟨[7], ⟨[]⟩, false⟩ [0, 0, 0, 0, 0, 0] 5 7
        (List.replicate 32 (List.replicate 32 0)) =
      .error (.panicked "TreasuryState too large")) ∧
    failsWith (Guest.send ts vh rc sg amount pid) Fault.isErrValue ∧
    (Guest.deposit ts sh vh amount pid).isOk = true ∧
    failsWith (Legacy.create_vault ts td vh tns sup pid2 pid)
      Fault.isPanicked ∧
    failsWith (Legacy.send ts vh rc amount pid) Fault.isPanicked ∧
    failsWith (Legacy.deposit ts sh vh amount pid) Fault.isPanicked ∧
    failsWith (Legacy.add_member accounts nm) Fault.isPanicked ∧
    failsWith (Legacy.change_threshold accounts t) Fault.isPanicked ∧
    failsWith (Legacy.deposit_handle accounts amount pid)
      Fault.isPanicked := by
  refine ⟨?_, by decide, ?_, rfl, ?_, ?_, ?_, ?_, ?_, ?_⟩
  all_goals
    apply failsWith_intro
    intro f hf
    simp only [Guest.create_vault, Guest.send, Legacy.create_vault,
      Legacy.send, Legacy.deposit, Legacy.add_member,
      Legacy.change_threshold, Legacy.deposit_handle,
      Legacy.build_transfer_instruction, leBytes,
      Legacy.chunksToWords] at hf
    repeat' split at hf
    all_goals first
      | (injection hf with h; subst h; rfl)
      | injection hf

/-- C9 counterexample: the legacy dispatcher `deposit` handler, given 2
accounts instead of 3, does not fail with `MalformedAccountList` — it
returns success with zero post-states and no chained calls, a silently
empty result. -/
theorem deposit_handle_silent_empty_result :
    Legacy.deposit_handle
      [⟨[1], ⟨[2]⟩, true⟩, ⟨[2], ⟨[]⟩, false⟩] 8 3 =
      .ok ⟨[], [⟨[1], ⟨[2]⟩, true⟩, ⟨[2], ⟨[]⟩, false⟩], [], []⟩ := rfl

/-- C9 (amended): no `MalformedAccountList` error exists in the code.
The legacy dispatcher `deposit` handler, for *every* account count other
than 3 (fewer or more), silently returns a successful empty result (no
post-states, no chained calls, no error); the legacy multisig handlers
with fewer than 2 accounts fail fast — but with a panic (`assert!`),
before any handler logic.  The guest handlers take a fixed number of
accounts by construction. -/
theorem wrong_account_count_behaviour
    (accounts accounts2 : List AccountWithMetadata) (amount pid : Nat)
    (nm : Bytes) (t : Nat)
    (h3 : accounts.length ≠ 3) (h2 : accounts2.length < 2) :
    Legacy.deposit_handle accounts amount pid =
      .ok ⟨[], accounts, [], []⟩ ∧
    Legacy.add_member accounts2 nm = .error (.panicked
      "AddMember requires multisig_state and authorized accounts") ∧
    Legacy.change_threshold accounts2 t = .error (.panicked
      "ChangeThreshold requires multisig_state and authorized accounts") := by
  refine ⟨?_, ?_, ?_⟩
  · rcases accounts with _ | ⟨a0, _ | ⟨a1, _ | ⟨a2, _ | ⟨a3, rest⟩⟩⟩⟩
    · rfl
    · rfl
    · rfl
    · exact absurd rfl h3
    · rfl
  all_goals
    rcases accounts2 with _ | ⟨b0, _ | ⟨b1, rest2⟩⟩
    · rfl
    · rfl
    · exact absurd h2 (by simp)

/-- C9 witness: a 4-account list (wrong count on the high side) triggers
the silent empty result of the dispatcher `deposit` handler, and a
single-account list triggers the panics of the multisig handlers. -/
theorem wrong_account_count_behaviour_witness :
    Legacy.deposit_handle [⟨[3], ⟨[]⟩, false⟩, ⟨[4], ⟨[]⟩, true⟩,
        ⟨[5], ⟨[]⟩, false⟩, ⟨[6], ⟨[]⟩, false⟩] 5 7 =
      .ok ⟨[], [⟨[3], ⟨[]⟩, false⟩, ⟨[4], ⟨[]⟩, true⟩,
        ⟨[5], ⟨[]⟩, false⟩, ⟨[6], ⟨[]⟩, false⟩], [], []⟩ ∧
    Legacy.add_member [⟨[3], ⟨[]⟩, false⟩] (List.replicate 32 6) =
      .error (.panicked
        "AddMember requires multisig_state and authorized accounts") ∧
    Legacy.change_threshold [⟨[3], ⟨[]⟩, false⟩] 2 =
      .error (.panicked
        "ChangeThreshold requires multisig_state and authorized accounts") :=
  wrong_account_count_behaviour
    [⟨[3], ⟨[]⟩, false⟩, ⟨[4], ⟨[]⟩, true⟩,
     ⟨[5], ⟨[]⟩, false⟩, ⟨[6], ⟨[]⟩, false⟩]
    [⟨[3], ⟨[]⟩, false⟩] 5 7
    (List.replicate 32 6) 2 (by decide) (by decide)

/-- C10 counterexample: the *legacy* `send` handler does not fail with a
returned deserialization error on a too-short vault buffer — it panics
(`expect` on `TokenHolding::try_from`), i.e. the failure is a fault, not
an error value. -/
theorem legacy_send_short_vault_panics :
    Legacy.send ⟨[6], ⟨[2]⟩, false⟩ ⟨[4], ⟨[0, 1, 2]⟩, false⟩
        ⟨[3], ⟨[]⟩, false⟩ 4 9 =
      .error (.panicked "Vault must be a valid TokenHolding") := rfl

/-- C10 (amended): the guest `Send` handler checks `len ≥ 33` before
extracting the embedded definition id and returns
`DeserializationError{account_index = 1}` when the vault buffer is too
short (once the authorization checks have passed); the legacy `send`
handler also verifies the buffer before extraction, but a too-short
buffer makes it panic rather than return an error. -/
theorem send_short_vault_buffer
    (ts vh rc sg : AccountWithMetadata) (amount pid : Nat)
    (st : TreasuryState)
    (hdec : decodeTreasuryState ts.account.data = some st)
    (hmem : sg.account_id ∈ st.authorized_accounts)
    (hauth : sg.is_authorized = true)
    (hlen : vh.account.data.length < 33)
    (ts2 vh2 rc2 : AccountWithMetadata) (amount2 pid2 : Nat)
    (hts2 : ¬ ts2.account = Account.default)
    (hvh2 : tokenHoldingTryFrom vh2.account.data = none) :
    Guest.send ts vh rc sg amount pid =
      .error (.err (.DeserializationError 1
        ("vault data too short (len=" ++
          toString vh.account.data.length ++ ")"))) ∧
    Legacy.send ts2 vh2 rc2 amount2 pid2 =
      .error (.panicked "Vault must be a valid TokenHolding") := by
  constructor
  · simp [Guest.send, hdec, hmem, hauth, hlen]
  · simp [Legacy.send, hts2, hvh2]

/-- C10 witness: concrete short vault buffers — the guest call returns a
`DeserializationError` for account index 1, the legacy call panics. -/
theorem send_short_vault_buffer_witness :
    Guest.send
        ⟨[9], ⟨encodeTreasuryState ⟨0, [List.replicate 32 5]⟩⟩, false⟩
        ⟨[8], ⟨[7]⟩, false⟩ ⟨[7], ⟨[]⟩, false⟩
        ⟨List.replicate 32 5, ⟨[]⟩, true⟩ 3 2 =
      .error (.err (.DeserializationError 1
        "vault data too short (len=1)")) ∧
    Legacy.send ⟨[6], ⟨[4]⟩, false⟩ ⟨[4], ⟨[9, 9]⟩, false⟩
        ⟨[3], ⟨[]⟩, false⟩ 4 9 =
      .error (.panicked "Vault must be a valid TokenHolding") :=
  send_short_vault_buffer _ _ _ _ 3 2 ⟨0, [List.replicate 32 5]⟩
    (by decide) (by decide) (by decide) (by decide)
    _ _ _ 4 9 (by decide) (by decide)

end Treasury
